import Mathlib

/-!
Verification development for the async sorted log merger
(src/solution/async-sorted-merge.js).

The file embeds the two components of the source file:

* `SourceReader` (lines 18-95): a fetch loop that keeps a `Map` of worker
  promises, waits for `Promise.any` over the map's values, and re-issues a
  fetch for a source whose result was data.  It is embedded as an explicit
  small-step state machine (`ReaderState`) driven by a schedule of
  micro-steps: a promise settling, the loop taking a snapshot of the map,
  and the loop consuming the first fulfilled member of that snapshot.

* `LogSorter` (lines 102-272): a synchronous reaction to `data` / `drained`
  notifications.  It is embedded as a deterministic transition system
  (`SorterState`, `onData`, `onDrained`, `runEvents`) over insertion-ordered
  association lists, which model JS `Map` (insertion-order iteration,
  `set` on an existing key keeps its position, `delete` removes it).

Timestamps: JS `Date` values are embedded as their UTC civil view
(`JSDate`): year, month (1-12), day, and milliseconds within the day.
For nonnegative years, the numeric (millisecond) order used by the sort
comparator `a.date - b.date` coincides with lexicographic order on
(y, m, d, ms); `tsLe` is that order.
-/

/-- UTC civil view of a JS `Date`: `y` is `getUTCFullYear()`, `m` is
`getUTCMonth() + 1`, `d` is `getUTCDate()`, and `ms` is the time of day in
milliseconds.  Years are taken nonnegative (the log domain). -/
structure JSDate where
  y : Nat
  m : Nat
  d : Nat
  ms : Nat
deriving DecidableEq, Repr

/-- Ranges of the civil fields of a real timestamp: month 1-12, day 1-31,
time of day below 86400000 ms. -/
def JSDate.validDate (t : JSDate) : Prop :=
  1 ≤ t.m ∧ t.m ≤ 12 ∧ 1 ≤ t.d ∧ t.d ≤ 31 ∧ t.ms < 86400000

instance (t : JSDate) : Decidable t.validDate := by
  unfold JSDate.validDate
  infer_instance

/-- Chronological order of timestamps: the order of JS millisecond values,
which for civil dates is lexicographic on (y, m, d, ms).  This is the order
computed by the sort comparator `a.date - b.date` (line 254-256). -/
def tsLe (a b : JSDate) : Prop :=
  a.y < b.y ∨ (a.y = b.y ∧ (a.m < b.m ∨ (a.m = b.m ∧
    (a.d < b.d ∨ (a.d = b.d ∧ a.ms ≤ b.ms)))))

instance (a b : JSDate) : Decidable (tsLe a b) := by
  unfold tsLe
  infer_instance

/-- Two timestamps fall on the same UTC calendar day. -/
def sameUTCDay (a b : JSDate) : Prop :=
  a.y = b.y ∧ a.m = b.m ∧ a.d = b.d

instance (a b : JSDate) : Decidable (sameUTCDay a b) := by
  unfold sameUTCDay
  infer_instance

/-- Translated from `LogSorter.dateToBucketId` (lines 196-205): the string
`YYYY` followed by the two-digit zero-padded `MM` and `DD`, read back as a
number.  For a nonnegative year and two-digit month and day fields this is
exactly `y * 10000 + m * 100 + d`. -/
def dateToBucketId (date : JSDate) : Nat :=
  date.y * 10000 + date.m * 100 + date.d

/-- A log entry as stored in buckets: its timestamp plus an opaque payload,
modelled by an identifier so distinct entries can be told apart. -/
structure LogData where
  date : JSDate
  id : Nat
deriving DecidableEq, Repr

/-- Lookup in an insertion-ordered association list, modelling `Map.get` /
`Map.has`. -/
def mapLookup {α : Type} (m : List (Nat × α)) (k : Nat) : Option α :=
  (m.find? (fun p => p.1 == k)).map (fun p => p.2)

/-- `Map.set`: an existing key keeps its position and gets the new value, a
new key is appended (JS Map iteration is in insertion order). -/
def mapSet {α : Type} (m : List (Nat × α)) (k : Nat) (v : α) :
    List (Nat × α) :=
  if (m.find? (fun p => p.1 == k)).isSome then
    m.map (fun p => if p.1 == k then (k, v) else p)
  else
    m ++ [(k, v)]

/-- `Map.delete`. -/
def mapDelete {α : Type} (m : List (Nat × α)) (k : Nat) : List (Nat × α) :=
  m.filter (fun p => !(p.1 == k))

/-- `Map.keys()`, in insertion order. -/
def mapKeys {α : Type} (m : List (Nat × α)) : List Nat :=
  m.map (fun p => p.1)

/-- `Map.values()`, in insertion order. -/
def mapValues {α : Type} (m : List (Nat × α)) : List α :=
  m.map (fun p => p.2)

/-- Translated from `LogSorter.addLogToBucket` (lines 220-225): push onto an
existing bucket's array (its map position is unchanged), otherwise create a
new bucket, which the `Map` appends. -/
def addLogToBucket (timeBuckets : List (Nat × List LogData)) (bucketId : Nat)
    (ld : LogData) : List (Nat × List LogData) :=
  match mapLookup timeBuckets bucketId with
  | some bucket => mapSet timeBuckets bucketId (bucket ++ [ld])
  | none => timeBuckets ++ [(bucketId, [ld])]

/-- The reducer of `getReadyBuckets` (lines 238-240):
`(earliest, current) => current < earliest ? current : earliest`. -/
def minStep (earliest current : Nat) : Nat :=
  if current < earliest then current else earliest

/-- A JS `Array.reduce` with no initial value: throws on the empty array
(modelled by `none`), otherwise starts from the first element. -/
def reduceEarliest : List Nat → Option Nat
  | [] => none
  | v :: vs => some (vs.foldl minStep v)

/-- Translated from `LogSorter.getReadyBuckets` (lines 233-245): the minimum
of `lastBucketUsedBySource.values()` via an initial-value-less `reduce`
(`none` models the `TypeError` on an empty map), then the bucket keys, in
map insertion order, that are strictly below it. -/
def getReadyBuckets (lastBucketUsedBySource : List (Nat × Nat))
    (timeBuckets : List (Nat × List LogData)) : Option (List Nat) :=
  (reduceEarliest (mapValues lastBucketUsedBySource)).map
    (fun earliestDate =>
      (mapKeys timeBuckets).filter (fun bucketId => decide (bucketId < earliestDate)))

/-- Insertion step of the stable sort by timestamp. -/
def insertByDate (ld : LogData) : List LogData → List LogData
  | [] => [ld]
  | x :: xs =>
    if tsLe ld.date x.date then ld :: x :: xs else x :: insertByDate ld xs

/-- Translated from `LogSorter.sortBucketByTimestamp` (lines 253-257):
`bucket.sort((a, b) => a.date - b.date)` — a stable ascending sort by
timestamp (JS `Array.sort` is stable). -/
def sortBucketByTimestamp (bucket : List LogData) : List LogData :=
  bucket.foldr insertByDate []

/-- Translated from `LogSorter.printBucket` (lines 267-271): each entry of
the bucket is handed to `printer.print` in order; the output list records
the sequence of printed entries. -/
def printBucket (output : List LogData) (bucket : List LogData) :
    List LogData :=
  output ++ bucket

/-- The `readyBuckets.forEach` body of `LogSorter.onData` (lines 175-184):
for each ready id, sort that bucket, print it, and delete it from the map.
The `none` branch is unreachable from `onData` (ready ids are a filter of
the map's keys); the JS would throw there on `undefined`. -/
def flushReadyBuckets (timeBuckets : List (Nat × List LogData))
    (output : List LogData) (ready : List Nat) :
    List (Nat × List LogData) × List LogData :=
  ready.foldl
    (fun acc bucketId =>
      match mapLookup acc.1 bucketId with
      | some bucket =>
          (mapDelete acc.1 bucketId, printBucket acc.2 (sortBucketByTimestamp bucket))
      | none => acc)
    (timeBuckets, output)

/-- State of a `LogSorter` plus the sequence of entries printed so far. -/
structure SorterState where
  timeBuckets : List (Nat × List LogData)
  lastBucketUsedBySource : List (Nat × Nat)
  output : List LogData
deriving DecidableEq, Repr

/-- Translated from `LogSorter.onData` (lines 162-185): bucket the entry,
record the source's watermark, then flush every ready bucket.  `none`
models `getReadyBuckets` throwing (its `reduce` over an empty map). -/
def onData (s : SorterState) (index : Nat) (ld : LogData) :
    Option SorterState :=
  (getReadyBuckets (mapSet s.lastBucketUsedBySource index (dateToBucketId ld.date))
      (addLogToBucket s.timeBuckets (dateToBucketId ld.date) ld)).map
    (fun ready =>
      { timeBuckets :=
          (flushReadyBuckets (addLogToBucket s.timeBuckets (dateToBucketId ld.date) ld)
            s.output ready).1,
        lastBucketUsedBySource :=
          mapSet s.lastBucketUsedBySource index (dateToBucketId ld.date),
        output :=
          (flushReadyBuckets (addLogToBucket s.timeBuckets (dateToBucketId ld.date) ld)
            s.output ready).2 })

/-- Translated from `LogSorter.onDrained` (lines 157-160): the handler body
is only a commented-out debug line. -/
def onDrained (s : SorterState) (index : Nat) : SorterState :=
  s

/-- A notification consumed by the sorter, as emitted by the reader. -/
inductive MergerEvent where
  | data (index : Nat) (ld : LogData)
  | drainedNote (index : Nat)
deriving DecidableEq, Repr

/-- Run the sorter over a sequence of reader notifications.  The `done`
event only resolves `LogSorter.start`'s promise (lines 148-155): it
touches no bucket, so the run ends with whatever state is left. -/
def runEvents (s : SorterState) : List MergerEvent → Option SorterState
  | [] => some s
  | MergerEvent.data index ld :: rest =>
      (onData s index ld).bind (fun s2 => runEvents s2 rest)
  | MergerEvent.drainedNote index :: rest =>
      runEvents (onDrained s index) rest

/-- The sorter's initial state: both maps empty, nothing printed. -/
def initState : SorterState :=
  { timeBuckets := [], lastBucketUsedBySource := [], output := [] }

/-- Printed output is non-decreasing by timestamp. -/
def sortedByDate : List LogData → Bool
  | [] => true
  | [_] => true
  | a :: b :: t => decide (tsLe a.date b.date) && sortedByDate (b :: t)

/-- Translated from `SourceReader.allSourcesDrained` (lines 43-45):
`sources.reduce((acc, source) => acc && source.drained, true)`, over the
sources' drained flags. -/
def allSourcesDrained (drainedFlags : List Bool) : Bool :=
  drainedFlags.foldl (fun acc drained => acc && drained) true

/-- Models module.exports (lines 276-288) run on the empty source list.
`reader.start()` is invoked at line 279, before the `LogSorter` subscribes
to any event (lines 282-283).  An async function runs synchronously up to
its first `await`; with zero sources the `forEach` at lines 68-71 issues no
fetch and `allSourcesDrained` is vacuously true, so `start` emits `done`
at line 93 synchronously inside the line-279 call — while no listener is
attached.  The `done` event is therefore delivered to the sorter only when
it is not emitted during that synchronous prefix. -/
def emptyRunDoneDelivered : Bool :=
  !(allSourcesDrained [])

/-- The exported promise resolves only when the sorter's `done` handler
fires (lines 148-155), and `printer.done()` (line 286) runs only after
that. -/
def emptyRunPrinterDoneCalled : Bool :=
  emptyRunDoneDelivered

/-- Outcome of one `source.popAsync()` call: the next entry, or a
rejection.  Once a source's listed outcomes are exhausted, further pops
resolve `false` (the drained sentinel) and set the source's `drained`
flag. -/
inductive PopOutcome where
  | entry (ld : LogData)
  | failure
deriving DecidableEq, Repr

/-- Settlement status of a worker promise: still pending, fulfilled with a
log, fulfilled with the drained sentinel `false`, or rejected. -/
inductive WorkerStatus where
  | pending
  | gotData (ld : LogData)
  | gotFalse
  | rejected
deriving DecidableEq, Repr

/-- One worker promise of `SourceReader.start` (lines 54-63).  `inMap`
mirrors membership in `this.workers`: `getNextLog` deletes its own key
when `popAsync` resolves (line 61), but a rejection skips that delete, so
a rejected worker stays in the map. -/
structure Worker where
  key : Nat
  index : Nat
  status : WorkerStatus
  inMap : Bool
deriving DecidableEq, Repr

/-- An event emitted by the reader (lines 79, 83, 93). -/
inductive ReaderEvent where
  | dataEv (index : Nat) (ld : LogData)
  | drainedEv (index : Nat)
  | doneEv
deriving DecidableEq, Repr

/-- Control position of `SourceReader.start`: about to test the `while`
condition (line 73); suspended on `Promise.any` over a snapshot of the
worker map's values (line 75); finished after emitting `done` (line 93);
or stuck after `Promise.any` rejected (every snapshot member rejected),
which makes the un-awaited `start()` promise reject and leaves the
pipeline without a `done` event. -/
inductive ReaderPhase where
  | atLoopHead
  | awaiting (snapshot : List Nat)
  | finished
  | stuck
deriving DecidableEq, Repr

/-- Small-step state of `SourceReader.start` together with its sources.
`srcRemaining` lists each source's future pop outcomes, `srcDrained` the
sources' drained flags, `settleOrder` the keys of settled workers in
settlement order (used to pick the promise `Promise.any` resolves with),
and `events` the notifications emitted so far. -/
structure ReaderState where
  counter : Nat
  srcRemaining : List (List PopOutcome)
  srcDrained : List Bool
  workers : List Worker
  settleOrder : List Nat
  phase : ReaderPhase
  events : List ReaderEvent
deriving DecidableEq, Repr

/-- Initial state (lines 50-71): one fetch per source, keyed 0..n-1 by the
`counter++` in the `forEach`; control is at the `while` test. -/
def readerInit (sources : List (List PopOutcome)) : ReaderState :=
  { counter := sources.length,
    srcRemaining := sources,
    srcDrained := sources.map (fun _ => false),
    workers := (List.range sources.length).map
      (fun i => { key := i, index := i, status := WorkerStatus.pending, inMap := true }),
    settleOrder := [],
    phase := ReaderPhase.atLoopHead,
    events := [] }

/-- Find a worker by key. -/
def findWorker (ws : List Worker) (k : Nat) : Option Worker :=
  ws.find? (fun w => w.key == k)

/-- Replace the worker with key `k`. -/
def updateWorker (ws : List Worker) (k : Nat) (w2 : Worker) : List Worker :=
  ws.map (fun w => if w.key == k then w2 else w)

/-- The worker promise with key `k` is fulfilled. -/
def workerFulfilled (ws : List Worker) (k : Nat) : Bool :=
  match findWorker ws k with
  | some w =>
    match w.status with
    | WorkerStatus.gotData _ => true
    | WorkerStatus.gotFalse => true
    | _ => false
  | none => false

/-- The worker promise with key `k` is rejected. -/
def workerRejected (ws : List Worker) (k : Nat) : Bool :=
  match findWorker ws k with
  | some w => w.status == WorkerStatus.rejected
  | none => false

/-- A pending worker's `popAsync` settles (lines 54-63).  An entry or the
drained sentinel fulfills the promise and the worker deletes itself from
the map (line 61); a rejection propagates out of `getNextLog` before the
delete, so the worker stays in the map.  Resolving `false` is when the
source's own `drained` flag is set. -/
def settleWorker (rs : ReaderState) (k : Nat) : ReaderState :=
  match findWorker rs.workers k with
  | none => rs
  | some w =>
    match w.status with
    | WorkerStatus.pending =>
      match rs.srcRemaining.getD w.index [] with
      | PopOutcome.entry ld :: rest =>
          { rs with
            workers := updateWorker rs.workers k
              { w with status := WorkerStatus.gotData ld, inMap := false },
            srcRemaining := rs.srcRemaining.set w.index rest,
            settleOrder := rs.settleOrder ++ [k] }
      | PopOutcome.failure :: rest =>
          { rs with
            workers := updateWorker rs.workers k
              { w with status := WorkerStatus.rejected },
            srcRemaining := rs.srcRemaining.set w.index rest,
            settleOrder := rs.settleOrder ++ [k] }
      | [] =>
          { rs with
            workers := updateWorker rs.workers k
              { w with status := WorkerStatus.gotFalse, inMap := false },
            srcDrained := rs.srcDrained.set w.index true,
            settleOrder := rs.settleOrder ++ [k] }
    | _ => rs

/-- One pass over the `while` head (lines 73-75): if every source is
drained, emit `done` (line 93) and finish; otherwise evaluate
`Promise.any(this.workers.values())`, capturing a snapshot of the keys
currently in the map, and suspend on it. -/
def loopIterStep (rs : ReaderState) : ReaderState :=
  match rs.phase with
  | ReaderPhase.atLoopHead =>
    if allSourcesDrained rs.srcDrained then
      { rs with events := rs.events ++ [ReaderEvent.doneEv],
                phase := ReaderPhase.finished }
    else
      { rs with phase :=
          ReaderPhase.awaiting ((rs.workers.filter (fun w => w.inMap)).map (fun w => w.key)) }
  | _ => rs

/-- The `await Promise.any` resumes (lines 75-90): the result is the first
snapshot member to fulfill (rejections are ignored); on data, emit `data`
and register a replacement fetch for the same source under a fresh
`counter++` key; on the sentinel, emit `drained` and issue nothing.  If
every snapshot member is rejected (including the empty snapshot),
`Promise.any` rejects with an `AggregateError` and `start` throws. -/
def consumeStep (rs : ReaderState) : ReaderState :=
  match rs.phase with
  | ReaderPhase.awaiting snapshot =>
    match rs.settleOrder.find?
        (fun k => snapshot.contains k && workerFulfilled rs.workers k) with
    | some k =>
      match findWorker rs.workers k with
      | some w =>
        match w.status with
        | WorkerStatus.gotData ld =>
            { rs with
              events := rs.events ++ [ReaderEvent.dataEv w.index ld],
              workers := rs.workers ++
                [{ key := rs.counter, index := w.index,
                   status := WorkerStatus.pending, inMap := true }],
              counter := rs.counter + 1,
              phase := ReaderPhase.atLoopHead }
        | WorkerStatus.gotFalse =>
            { rs with
              events := rs.events ++ [ReaderEvent.drainedEv w.index],
              phase := ReaderPhase.atLoopHead }
        | _ => rs
      | none => rs
    | none =>
      if snapshot.all (fun k => workerRejected rs.workers k) then
        { rs with phase := ReaderPhase.stuck }
      else
        rs
  | _ => rs

/-- One scheduler choice: a particular promise settles, the loop head
runs, or the pending `await` resumes with the first fulfilled snapshot
member. -/
inductive SchedStep where
  | settle (k : Nat)
  | loopIter
  | consume
deriving DecidableEq, Repr

/-- Apply one scheduled micro-step. -/
def readerStep (rs : ReaderState) : SchedStep → ReaderState
  | SchedStep.settle k => settleWorker rs k
  | SchedStep.loopIter => loopIterStep rs
  | SchedStep.consume => consumeStep rs

/-- Run the reader under an explicit schedule of micro-steps. -/
def readerExec (rs : ReaderState) (sched : List SchedStep) : ReaderState :=
  sched.foldl readerStep rs

/-- Reader notifications seen by the sorter: `data` and `drained` map to
the sorter's handlers; `done` only resolves `LogSorter.start`. -/
def toMergerEvents (evs : List ReaderEvent) : List MergerEvent :=
  evs.filterMap
    (fun e =>
      match e with
      | ReaderEvent.dataEv index ld => some (MergerEvent.data index ld)
      | ReaderEvent.drainedEv index => some (MergerEvent.drainedNote index)
      | ReaderEvent.doneEv => none)

/-- Entry of source A in bucket 20000102, 10:00 UTC. -/
def eA1 : LogData := { date := { y := 2000, m := 1, d := 2, ms := 36000000 }, id := 1 }

/-- Entry of source A in bucket 20000103, 10:00 UTC. -/
def eA2 : LogData := { date := { y := 2000, m := 1, d := 3, ms := 36000000 }, id := 2 }

/-- Entry of source B in bucket 20000101, 10:00 UTC. -/
def eB1 : LogData := { date := { y := 2000, m := 1, d := 1, ms := 36000000 }, id := 3 }

/-- Entry of source B in bucket 20000103, 11:00 UTC. -/
def eB2 : LogData := { date := { y := 2000, m := 1, d := 3, ms := 39600000 }, id := 4 }

/-- Two per-source-sorted sources: A = day2, day3 and B = day1, day3. -/
def c1sources : List (List PopOutcome) :=
  [[PopOutcome.entry eA1, PopOutcome.entry eA2],
   [PopOutcome.entry eB1, PopOutcome.entry eB2]]

/-- A race-free schedule alternating the sources: every settled fetch is
consumed before the next one settles, so no result is lost and the run
ends with `done` after both drain. -/
def c1sched : List SchedStep :=
  [SchedStep.loopIter, SchedStep.settle 0, SchedStep.consume,
   SchedStep.loopIter, SchedStep.settle 1, SchedStep.consume,
   SchedStep.loopIter, SchedStep.settle 2, SchedStep.consume,
   SchedStep.loopIter, SchedStep.settle 3, SchedStep.consume,
   SchedStep.loopIter, SchedStep.settle 4, SchedStep.consume,
   SchedStep.loopIter, SchedStep.settle 5, SchedStep.consume,
   SchedStep.loopIter]

/-- Final reader state of the C1 run. -/
def c1final : ReaderState :=
  readerExec (readerInit c1sources) c1sched

/-- The merger-level trace of the C5 run: the same interleaving as the C1
run, before the sources drain. -/
def c5trace : List MergerEvent :=
  [MergerEvent.data 0 eA1, MergerEvent.data 1 eB1,
   MergerEvent.data 0 eA2, MergerEvent.data 1 eB2]

/-- Source A entry, bucket 20000101, 10:00 UTC. -/
def fA1 : LogData := { date := { y := 2000, m := 1, d := 1, ms := 36000000 }, id := 11 }

/-- Source A entry, bucket 20000102, 10:00 UTC. -/
def fA2 : LogData := { date := { y := 2000, m := 1, d := 2, ms := 36000000 }, id := 12 }

/-- Source B entry, bucket 20000101, 08:00 UTC — earlier than `fA1`. -/
def fB1 : LogData := { date := { y := 2000, m := 1, d := 1, ms := 28800000 }, id := 13 }

/-- Source B entry, bucket 20000102, 12:00 UTC. -/
def fB2 : LogData := { date := { y := 2000, m := 1, d := 2, ms := 43200000 }, id := 14 }

/-- Source 0 delivers its first two entries before source 1 (active, no
entry delivered yet, hence no recorded watermark) delivers anything. -/
def c2traceA : List MergerEvent :=
  [MergerEvent.data 0 fA1, MergerEvent.data 0 fA2]

/-- The same run continued: source 1 then delivers a day-1 entry older
than the already-flushed day-1 bucket, then a day-2 entry. -/
def c2traceFull : List MergerEvent :=
  c2traceA ++ [MergerEvent.data 1 fB1, MergerEvent.data 1 fB2]

/-- The single entry of the single-source C3 run, bucket 20000101. -/
def g1 : LogData := { date := { y := 2000, m := 1, d := 1, ms := 36000000 }, id := 21 }

/-- Trace of a complete single-source run: one entry, then the source
drains and the reader emits `done`. -/
def c3trace : List MergerEvent :=
  [MergerEvent.data 0 g1]

/-- Source 0's only entry, bucket 20000101, 09:00 UTC. -/
def h7a : LogData := { date := { y := 2000, m := 1, d := 1, ms := 32400000 }, id := 31 }

/-- Source 1 entries for the C7 run: day 1, day 2, day 3. -/
def h7b1 : LogData := { date := { y := 2000, m := 1, d := 1, ms := 36000000 }, id := 32 }

/-- Source 1 entry in bucket 20000102. -/
def h7b2 : LogData := { date := { y := 2000, m := 1, d := 2, ms := 36000000 }, id := 33 }

/-- Source 1 entry in bucket 20000103. -/
def h7b3 : LogData := { date := { y := 2000, m := 1, d := 3, ms := 36000000 }, id := 34 }

/-- Source 0 delivers one day-1 entry and drains; source 1 then advances
through day 1, day 2 and day 3. -/
def c7trace : List MergerEvent :=
  [MergerEvent.data 0 h7a, MergerEvent.drainedNote 0,
   MergerEvent.data 1 h7b1, MergerEvent.data 1 h7b2, MergerEvent.data 1 h7b3]

/-- Both single-entry sources for the C8 run (day 1 and day 2 entries). -/
def m8a : LogData := { date := { y := 2000, m := 1, d := 1, ms := 36000000 }, id := 41 }

/-- The entry of source 1 whose fetched result gets lost in the C8 run. -/
def m8b : LogData := { date := { y := 2000, m := 1, d := 2, ms := 36000000 }, id := 42 }

/-- Two single-entry sources. -/
def c8sources : List (List PopOutcome) :=
  [[PopOutcome.entry m8a], [PopOutcome.entry m8b]]

/-- Both initial fetches settle before the loop's first `await` resumes —
e.g. both `popAsync` promises fulfill in the same tick.  Each settled
worker deletes itself from the map; the loop consumes the first result,
re-fetches only source 0, and the next `Promise.any` snapshot no longer
contains source 1's fulfilled worker. -/
def c8sched : List SchedStep :=
  [SchedStep.loopIter, SchedStep.settle 0, SchedStep.settle 1,
   SchedStep.consume,
   SchedStep.loopIter, SchedStep.settle 2, SchedStep.consume,
   SchedStep.loopIter, SchedStep.consume]

/-- Final reader state of the C8 run. -/
def c8final : ReaderState :=
  readerExec (readerInit c8sources) c8sched

/-- Entries of the healthy source in the C6 run: day 1 and day 2. -/
def n6a : LogData := { date := { y := 2000, m := 1, d := 1, ms := 36000000 }, id := 51 }

/-- Second entry of the healthy source in the C6 run. -/
def n6b : LogData := { date := { y := 2000, m := 1, d := 2, ms := 36000000 }, id := 52 }

/-- Source 0's first `popAsync` rejects; source 1 delivers two entries
and drains. -/
def c6sources : List (List PopOutcome) :=
  [[PopOutcome.failure], [PopOutcome.entry n6a, PopOutcome.entry n6b]]

/-- The rejection settles first; `Promise.any` ignores it and keeps
serving source 1 until it drains, after which only the rejected worker is
left in the map and `Promise.any` rejects. -/
def c6sched : List SchedStep :=
  [SchedStep.loopIter, SchedStep.settle 0, SchedStep.settle 1,
   SchedStep.consume,
   SchedStep.loopIter, SchedStep.settle 2, SchedStep.consume,
   SchedStep.loopIter, SchedStep.settle 3, SchedStep.consume,
   SchedStep.loopIter, SchedStep.consume]

/-- Final reader state of the C6 run. -/
def c6final : ReaderState :=
  readerExec (readerInit c6sources) c6sched

/-- Claim C9: `dateToBucketId` is monotone and day-truncating: for valid
timestamps `t1 ≤ t2`, `dateToBucketId t1 ≤ dateToBucketId t2`, with
equality exactly when the two timestamps fall on the same UTC calendar
day. -/
theorem c9_dateToBucketId_monotone_day_truncating (t1 t2 : JSDate)
    (h1 : t1.validDate) (h2 : t2.validDate) (hle : tsLe t1 t2) :
    dateToBucketId t1 ≤ dateToBucketId t2 ∧
      (dateToBucketId t1 = dateToBucketId t2 ↔ sameUTCDay t1 t2) := by
  unfold JSDate.validDate at h1 h2
  unfold tsLe at hle
  unfold dateToBucketId sameUTCDay
  omega

/-- Witness for claim C9 at a concrete year boundary: 2024-12-31 against
2025-01-01. -/
theorem c9_witness :
    dateToBucketId ⟨2024, 12, 31, 0⟩ ≤ dateToBucketId ⟨2025, 1, 1, 0⟩ ∧
      (dateToBucketId ⟨2024, 12, 31, 0⟩ = dateToBucketId ⟨2025, 1, 1, 0⟩ ↔
        sameUTCDay ⟨2024, 12, 31, 0⟩ ⟨2025, 1, 1, 0⟩) :=
  c9_dateToBucketId_monotone_day_truncating _ _ (by decide) (by decide)
    (by decide)

/-- The fold of `minStep` never exceeds its starting accumulator. -/
theorem foldl_minStep_le_init (l : List Nat) : ∀ v : Nat, l.foldl minStep v ≤ v := by
  induction l with
  | nil => intro v; exact Nat.le_refl v
  | cons c t ih =>
      intro v
      have h1 : (c :: t).foldl minStep v = t.foldl minStep (minStep v c) := rfl
      have h2 := ih (minStep v c)
      have h3 : minStep v c ≤ v := by unfold minStep; split <;> omega
      omega

/-- The fold of `minStep` is a lower bound of the folded list. -/
theorem foldl_minStep_le_mem (l : List Nat) :
    ∀ v w : Nat, w ∈ l → l.foldl minStep v ≤ w := by
  induction l with
  | nil => intro v w hw; cases hw
  | cons c t ih =>
      intro v w hw
      have h1 : (c :: t).foldl minStep v = t.foldl minStep (minStep v c) := rfl
      rcases List.mem_cons.mp hw with hw | hw
      · subst hw
        have h2 := foldl_minStep_le_init t (minStep v w)
        have h3 : minStep v w ≤ w := by unfold minStep; split <;> omega
        omega
      · have h2 := ih (minStep v c) w hw
        omega

/-- The fold of `minStep` is an element of accumulator-plus-list. -/
theorem foldl_minStep_mem (l : List Nat) :
    ∀ v : Nat, l.foldl minStep v ∈ v :: l := by
  induction l with
  | nil => intro v; exact List.mem_singleton.mpr rfl
  | cons c t ih =>
      intro v
      have h1 : (c :: t).foldl minStep v = t.foldl minStep (minStep v c) := rfl
      rw [h1]
      rcases List.mem_cons.mp (ih (minStep v c)) with h | h
      · rw [h]
        unfold minStep
        split
        · exact List.mem_cons_of_mem _ (List.mem_cons_self _ _)
        · exact List.mem_cons_self _ _
      · exact List.mem_cons_of_mem _ (List.mem_cons_of_mem _ h)

/-- On a nonempty values list, the initial-value-less `reduce` returns the
minimum of the list, which is one of its elements. -/
theorem reduceEarliest_spec (v : Nat) (vs : List Nat) :
    ∃ m, reduceEarliest (v :: vs) = some m ∧ m ∈ v :: vs ∧
      ∀ w ∈ v :: vs, m ≤ w := by
  refine ⟨vs.foldl minStep v, rfl, foldl_minStep_mem vs v, ?_⟩
  intro w hw
  rcases List.mem_cons.mp hw with hw | hw
  · subst hw; exact foldl_minStep_le_init vs w
  · exact foldl_minStep_le_mem vs v w hw

/-- `mapSet` never produces the empty map. -/
theorem mapSet_ne_nil {α : Type} (m : List (Nat × α)) (k : Nat) (v : α) :
    mapSet m k v ≠ [] := by
  unfold mapSet
  split
  · next h =>
      cases m with
      | nil => simp [List.find?] at h
      | cons a t => simp
  · simp

/-- On a nonempty watermark map, `getReadyBuckets` does not throw. -/
theorem getReadyBuckets_isSome_of_ne_nil (wm : List (Nat × Nat))
    (tb : List (Nat × List LogData)) (h : wm ≠ []) :
    (getReadyBuckets wm tb).isSome = true := by
  unfold getReadyBuckets
  cases wm with
  | nil => exact absurd rfl h
  | cons p t => rfl

/-- `onData` never hits the throwing branch: the watermark it just recorded
makes the map it reduces over nonempty. -/
theorem onData_isSome (s : SorterState) (index : Nat) (ld : LogData) :
    (onData s index ld).isSome = true := by
  unfold onData
  have h := getReadyBuckets_isSome_of_ne_nil
    (mapSet s.lastBucketUsedBySource index (dateToBucketId ld.date))
    (addLogToBucket s.timeBuckets (dateToBucketId ld.date) ld)
    (mapSet_ne_nil _ _ _)
  cases hg : getReadyBuckets
      (mapSet s.lastBucketUsedBySource index (dateToBucketId ld.date))
      (addLogToBucket s.timeBuckets (dateToBucketId ld.date) ld) with
  | none => rw [hg] at h; simp at h
  | some r => rfl

/-- Claim C10: `getReadyBuckets` is only called from `onData`, after the
current entry's watermark was recorded, so the map it reduces over is
nonempty; under that precondition the initial-value-less reduce does not
throw, `onData` is total, and the ready list is exactly the held bucket
keys strictly below the minimum recorded watermark. -/
theorem c10_getReadyBuckets_total_below_min (s : SorterState) (index : Nat)
    (ld : LogData) :
    ∃ earliest ready,
      getReadyBuckets (mapSet s.lastBucketUsedBySource index (dateToBucketId ld.date))
          (addLogToBucket s.timeBuckets (dateToBucketId ld.date) ld) = some ready ∧
      (onData s index ld).isSome = true ∧
      earliest ∈ mapValues (mapSet s.lastBucketUsedBySource index (dateToBucketId ld.date)) ∧
      (∀ w ∈ mapValues (mapSet s.lastBucketUsedBySource index (dateToBucketId ld.date)),
        earliest ≤ w) ∧
      (∀ K, K ∈ ready ↔
        K ∈ mapKeys (addLogToBucket s.timeBuckets (dateToBucketId ld.date) ld) ∧
          K < earliest) := by
  obtain ⟨v, vs, hv⟩ : ∃ v vs,
      mapValues (mapSet s.lastBucketUsedBySource index (dateToBucketId ld.date)) =
        v :: vs := by
    cases hw : mapSet s.lastBucketUsedBySource index (dateToBucketId ld.date) with
    | nil => exact absurd hw (mapSet_ne_nil _ _ _)
    | cons p t => exact ⟨p.2, mapValues t, rfl⟩
  obtain ⟨m, hm, hmem, hle⟩ := reduceEarliest_spec v vs
  refine ⟨m,
    (mapKeys (addLogToBucket s.timeBuckets (dateToBucketId ld.date) ld)).filter
      (fun bucketId => decide (bucketId < m)),
    ?_, onData_isSome s index ld, ?_, ?_, ?_⟩
  · unfold getReadyBuckets
    rw [hv, hm]
    rfl
  · rw [hv]; exact hmem
  · rw [hv]; exact hle
  · intro K
    constructor
    · intro hK
      have h2 := List.mem_filter.mp hK
      exact ⟨h2.1, of_decide_eq_true h2.2⟩
    · intro hK
      exact List.mem_filter.mpr ⟨hK.1, decide_eq_true hK.2⟩

/-- Claim C1 (refuted on the code): a complete, race-free run over two
per-source-sorted sources (A = day2, day3; B = day1, day3) ends with
`done`, yet the printed sequence is [eA1, eB1] — a day-2 entry before a
day-1 entry, so not sorted by timestamp — and the day-3 entry eA2 is never
printed, so the output is not a permutation of the sources' entries. -/
theorem c1_complete_run_unsorted_and_lossy :
    sortedByDate [eA1, eA2] = true ∧ sortedByDate [eB1, eB2] = true ∧
      c1final.phase = ReaderPhase.finished ∧
      (runEvents initState (toMergerEvents c1final.events)).map SorterState.output =
        some [eA1, eB1] ∧
      sortedByDate [eA1, eB1] = false ∧
      eA2 ∉ [eA1, eB1] := by
  refine ⟨by decide, by decide, by decide, by decide, by decide, by decide⟩

/-- Claim C2 (refuted on the code): after source 0 has delivered day-1 and
day-2 entries while source 1 — active, never drained — has not delivered
anything and so has no recorded watermark, the day-1 bucket is already
flushed (fA1 printed); source 1 then delivers an older day-1 entry, and
the continued run prints out of timestamp order. -/
theorem c2_flushed_while_watermarkless_source_active :
    (runEvents initState c2traceA).map SorterState.output = some [fA1] ∧
      (runEvents initState c2traceA).bind
        (fun s => mapLookup s.lastBucketUsedBySource 1) = none ∧
      (runEvents initState c2traceFull).map SorterState.output = some [fA1, fB1] ∧
      sortedByDate [fA1, fB1] = false := by
  refine ⟨by decide, by decide, by decide, by decide⟩

/-- Claim C3 (refuted on the code): at `done` no remaining bucket is
flushed — after a complete single-source run with one entry, the bucket is
still held, nothing was printed, and `printer.done` is then called. -/
theorem c3_done_flushes_nothing :
    runEvents initState c3trace =
      some { timeBuckets := [(20000101, [g1])],
             lastBucketUsedBySource := [(0, 20000101)],
             output := [] } := by
  decide

/-- Claim C4 (refuted on the code): with zero sources `allSourcesDrained`
holds at once, so `reader.start()` emits `done` synchronously before the
sorter subscribes; the sorter never sees `done`, the exported promise
never resolves, and `printer.done` is never called. -/
theorem c4_empty_source_list_hangs :
    allSourcesDrained [] = true ∧ emptyRunDoneDelivered = false ∧
      emptyRunPrinterDoneCalled = false := by
  decide

/-- Claim C5 (refuted on the code): when buckets 20000102 and 20000101
become ready together, they are flushed in map insertion order — the
day-2 entry eA1 is printed before the day-1 entry eB1, although
eB1's bucket key is smaller. -/
theorem c5_flush_in_insertion_order_not_ascending :
    (runEvents initState c5trace).map SorterState.output = some [eA1, eB1] ∧
      dateToBucketId eB1.date < dateToBucketId eA1.date := by
  refine ⟨by decide, by decide⟩

/-- Claim C6 (refuted on the code): after source 0's fetch rejects,
`Promise.any` ignores the rejection; source 1's entries are still emitted
(and printed) after the failure settled, and the run ends stuck — the
rejected `start()` promise is never awaited, `done` never fires, and no
error reaches the caller of the exported function. -/
theorem c6_failure_not_propagated :
    c6final.phase = ReaderPhase.stuck ∧
      c6final.events = [ReaderEvent.dataEv 1 n6a, ReaderEvent.dataEv 1 n6b,
        ReaderEvent.drainedEv 1] ∧
      ReaderEvent.doneEv ∉ c6final.events := by
  refine ⟨by decide, by decide, by decide⟩

/-- Claim C7 (refuted on the code): `onDrained` is a no-op — the drained
source keeps its recorded watermark in the minimum computation and no
flush is recomputed, so after source 0 drains at day 1, source 1's
progress to day 3 flushes nothing. -/
theorem c7_onDrained_noop_blocks_flush :
    (∀ (s : SorterState) (index : Nat), onDrained s index = s) ∧
      (runEvents initState c7trace).map SorterState.output = some [] ∧
      (runEvents initState c7trace).bind
        (fun s => mapLookup s.lastBucketUsedBySource 0) = some 20000101 :=
  ⟨fun _ _ => rfl, by decide, by decide⟩

/-- Claim C8 (refuted on the code): when both initial fetches settle
before the loop's first `await` resumes, both workers delete themselves
from the map; only source 0's result is consumed, source 1's entry m8b is
never delivered, source 1 — never drained — is left with no worker in the
map, and the next `Promise.any` over the empty map rejects, leaving the
run stuck with no `done`. -/
theorem c8_fetch_result_lost :
    c8final.phase = ReaderPhase.stuck ∧
      c8final.events = [ReaderEvent.dataEv 0 m8a, ReaderEvent.drainedEv 0] ∧
      c8final.srcDrained = [true, false] ∧
      (c8final.workers.filter (fun w => w.inMap)).map (fun w => w.key) = [] ∧
      ReaderEvent.dataEv 1 m8b ∉ c8final.events := by
  refine ⟨by decide, by decide, by decide, by decide, by decide⟩
